import Mathlib

/-!
Verification of the api-scripts repository against its specification.

Each section shallowly embeds one script's relevant functions as Lean
definitions translated from the Python source, and proves the stated
properties about them.
-/

namespace MediaRetention

/-- `SEC_PER_YEAR = 365 * 24 * 3600` from media-retention-report.py. -/
def SEC_PER_YEAR : Int := 365 * 24 * 3600

/-- `SEC_2Y = 2 * SEC_PER_YEAR`. -/
def SEC_2Y : Int := 2 * SEC_PER_YEAR

/-- `SEC_4Y = 4 * SEC_PER_YEAR`. -/
def SEC_4Y : Int := 4 * SEC_PER_YEAR

/-- Auxiliary: Python `last_gap is None or last_gap >= thr`. -/
def gapNoneOrGe (gap : Option Int) (thr : Int) : Bool :=
  match gap with
  | none => true
  | some g => decide (thr ≤ g)

/-- Embedding of `classify_policy_at(created_at, last_play, asof_epoch)`.
Python truthiness: `(asof_epoch - last_play) if last_play else None`, so a
`last_play` of `None` or `0` yields `last_gap = None`. -/
def classify_policy_at (created_at : Int) (last_play : Option Int)
    (asof_epoch : Int) : Option String :=
  let age := asof_epoch - created_at
  let last_gap : Option Int :=
    match last_play with
    | some lp => if lp = 0 then none else some (asof_epoch - lp)
    | none => none
  if SEC_4Y ≤ age ∧ gapNoneOrGe last_gap SEC_4Y then some "4year"
  else if (SEC_2Y ≤ age ∧ age < SEC_4Y) ∧ gapNoneOrGe last_gap SEC_2Y then
    some "2year"
  else none

/-- The claim's "last_play is absent or zero, or asof - last_play >= thr". -/
def watchOk (asof : Int) (last_play : Option Int) (thr : Int) : Prop :=
  last_play = none ∨ last_play = some 0 ∨
    (∃ lp, last_play = some lp ∧ thr ≤ asof - lp)

/-- C8: `classify_policy_at` returns "4year" iff the entry is at least four
years old and was last played (if ever, and a last-played epoch of 0 counts
as never) at least four years before the as-of date; "2year" iff the age is
in [2y, 4y) with the analogous two-year watch condition; and `none` in every
other case, so entries younger than two years are never candidates. -/
theorem classify_policy_at_correct (created_at asof : Int)
    (last_play : Option Int) :
    (classify_policy_at created_at last_play asof = some "4year" ↔
      (4 * 365 * 24 * 3600 ≤ asof - created_at ∧
        watchOk asof last_play (4 * 365 * 24 * 3600))) ∧
    (classify_policy_at created_at last_play asof = some "2year" ↔
      ((2 * 365 * 24 * 3600 ≤ asof - created_at ∧
          asof - created_at < 4 * 365 * 24 * 3600) ∧
        watchOk asof last_play (2 * 365 * 24 * 3600))) ∧
    (¬ (4 * 365 * 24 * 3600 ≤ asof - created_at ∧
          watchOk asof last_play (4 * 365 * 24 * 3600)) →
      ¬ ((2 * 365 * 24 * 3600 ≤ asof - created_at ∧
            asof - created_at < 4 * 365 * 24 * 3600) ∧
          watchOk asof last_play (2 * 365 * 24 * 3600)) →
      classify_policy_at created_at last_play asof = none) := by
  have h2 : SEC_2Y = 2 * 365 * 24 * 3600 := by
    simp [SEC_2Y, SEC_PER_YEAR]
  have h4 : SEC_4Y = 4 * 365 * 24 * 3600 := by
    simp [SEC_4Y, SEC_PER_YEAR]
  rcases last_play with _ | lp
  · simp only [classify_policy_at, gapNoneOrGe, h2, h4]
    split_ifs with hc1 hc2 <;> simp_all [watchOk]
  · by_cases hz : lp = 0
    · subst hz
      simp only [classify_policy_at, gapNoneOrGe, h2, h4, if_pos rfl]
      split_ifs with hc1 hc2 <;> simp_all [watchOk]
    · simp only [classify_policy_at, gapNoneOrGe, h2, h4, if_neg hz]
      split_ifs with hc1 hc2 <;> simp_all [watchOk, hz]

end MediaRetention

namespace MediaRetention

/-- Model of a Python exception as inspected by `_is_retryable_error`:
its `str(...)` form, whether it is a `KalturaClientException`, and its
optional `code` attribute. -/
structure PyExc where
  msg : String
  isKalturaClientException : Bool
  code : Option Int
deriving DecidableEq

/-- Embedding of `_is_retryable_error(ex)` from media-retention-report.py. -/
def _is_retryable_error (ex : PyExc) : Bool :=
  ex.msg.containsSubstr "Read timed out"
  || ex.msg.containsSubstr "Operation timed out"
  || ex.msg.containsSubstr "HTTPSConnectionPool"
  || ex.msg.containsSubstr "Max retries exceeded"
  || (ex.msg.containsSubstr "NoneType"
      && (ex.msg.containsSubstr "has no attribute"
          || ex.msg.containsSubstr "object has no attribute"))
  || (ex.isKalturaClientException && decide (ex.code = some (-4)))

/-- The retry/backoff configuration read from the environment
(`RETRIES`, `BACKOFF_BASE`, `BACKOFF_MIN`, `BACKOFF_MAX`). -/
structure RetryCfg where
  RETRIES : Nat
  BACKOFF_BASE : ℚ
  BACKOFF_MIN : ℚ
  BACKOFF_MAX : ℚ

/-- The sleep performed before retry number `attempt` (1-indexed), where `r`
is the `random.random()` draw: Python computes
`min(BACKOFF_MAX, BACKOFF_MIN * BACKOFF_BASE ** (attempt - 1))`
and scales it by `0.7 + 0.6 * r`. -/
def backoffSleep (cfg : RetryCfg) (attempt : Nat) (r : ℚ) : ℚ :=
  min cfg.BACKOFF_MAX (cfg.BACKOFF_MIN * cfg.BACKOFF_BASE ^ (attempt - 1))
    * (7/10 + 6/10 * r)

/-- Embedding of `retry_call`'s loop. `calls n` is the outcome of the `n`-th
invocation of the wrapped `fn` (0-indexed), `r n` is the jitter draw used
after a failure of call `n`, and `remaining = RETRIES - n` is the retry
budget left (Python raises when `attempt > RETRIES`, with `attempt = n + 1`
after call `n` fails). Returns the final outcome together with the list of
sleeps performed, in order. -/
def retryFrom (calls : Nat → Except PyExc α) (r : Nat → ℚ) (cfg : RetryCfg) :
    Nat → Nat → Except PyExc α × List ℚ
  | remaining, n =>
    match calls n, remaining with
    | .ok v, _ => (.ok v, [])
    | .error e, 0 => (.error e, [])
    | .error e, rem + 1 =>
      if _is_retryable_error e then
        let s := backoffSleep cfg (n + 1) (r n)
        let rest := retryFrom calls r cfg rem (n + 1)
        (rest.1, s :: rest.2)
      else (.error e, [])

/-- `retry_call(fn, ...)`: the loop starts at call 0 with the full budget. -/
def retry_call (calls : Nat → Except PyExc α) (r : Nat → ℚ)
    (cfg : RetryCfg) : Except PyExc α × List ℚ :=
  retryFrom calls r cfg cfg.RETRIES 0

theorem retryFrom_length_le (calls : Nat → Except PyExc α) (r : Nat → ℚ)
    (cfg : RetryCfg) (rem n : Nat) :
    (retryFrom calls r cfg rem n).2.length ≤ rem := by
  induction rem generalizing n with
  | zero => cases h : calls n <;> simp [retryFrom, h]
  | succ k ih =>
    cases h : calls n with
    | ok v => simp [retryFrom, h]
    | error e =>
      by_cases hr : _is_retryable_error e <;> simp [retryFrom, h, hr]
      exact ih (n + 1)

theorem retryFrom_result_eq (calls : Nat → Except PyExc α) (r : Nat → ℚ)
    (cfg : RetryCfg) (rem n : Nat) :
    (retryFrom calls r cfg rem n).1 =
      calls (n + (retryFrom calls r cfg rem n).2.length) := by
  induction rem generalizing n with
  | zero => cases h : calls n <;> simp [retryFrom, h]
  | succ k ih =>
    cases h : calls n with
    | ok v => simp [retryFrom, h]
    | error e =>
      by_cases hr : _is_retryable_error e <;> simp [retryFrom, h, hr]
      rw [ih (n + 1)]
      congr 1
      omega

theorem retryFrom_slept_retryable (calls : Nat → Except PyExc α)
    (r : Nat → ℚ) (cfg : RetryCfg) (rem n : Nat) :
    ∀ i < (retryFrom calls r cfg rem n).2.length,
      ∃ e, calls (n + i) = .error e ∧ _is_retryable_error e = true := by
  induction rem generalizing n with
  | zero => cases h : calls n <;> simp [retryFrom, h]
  | succ k ih =>
    cases h : calls n with
    | ok v => simp [retryFrom, h]
    | error e =>
      by_cases hr : _is_retryable_error e <;> simp [retryFrom, h, hr]
      intro i hi
      rcases i with _ | j
      · exact ⟨e, by simpa using h, hr⟩
      · obtain ⟨e', he', hre'⟩ := ih (n + 1) j (by omega)
        refine ⟨e', ?_, hre'⟩
        rw [show n + (j + 1) = n + 1 + j by omega]
        exact he'

theorem retryFrom_error_exhausted (calls : Nat → Except PyExc α)
    (r : Nat → ℚ) (cfg : RetryCfg) (rem n : Nat) (e : PyExc)
    (h : (retryFrom calls r cfg rem n).1 = .error e) :
    _is_retryable_error e = false ∨
      (retryFrom calls r cfg rem n).2.length = rem := by
  induction rem generalizing n with
  | zero =>
    right
    cases hc : calls n <;> simp [retryFrom, hc]
  | succ k ih =>
    cases hc : calls n with
    | ok v => simp [retryFrom, hc] at h
    | error e' =>
      by_cases hr : _is_retryable_error e' <;>
        simp [retryFrom, hc, hr] at h ⊢
      · rcases ih (n + 1) h with h1 | h1
        · exact Or.inl h1
        · exact Or.inr h1
      · subst h
        simpa using hr

theorem retryFrom_sleep_values (calls : Nat → Except PyExc α) (r : Nat → ℚ)
    (cfg : RetryCfg) (rem n : Nat) :
    ∀ i s, (retryFrom calls r cfg rem n).2[i]? = some s →
      s = backoffSleep cfg (n + i + 1) (r (n + i)) := by
  induction rem generalizing n with
  | zero => cases h : calls n <;> simp [retryFrom, h]
  | succ k ih =>
    cases h : calls n with
    | ok v => simp [retryFrom, h]
    | error e =>
      by_cases hr : _is_retryable_error e <;> simp [retryFrom, h, hr]
      intro i s hs
      rcases i with _ | j
      · have hv : backoffSleep cfg (n + 1) (r n) = s := by simpa using hs
        simpa using hv.symm
      · rw [List.getElem?_cons_succ] at hs
        have hrec := ih (n + 1) j s hs
        rw [hrec, show n + 1 + j + 1 = n + (j + 1) + 1 from by omega,
          show n + 1 + j = n + (j + 1) from by omega]

/-- C2: `retry_call` re-raises a non-retryable exception immediately (every
call that is followed by a backoff sleep failed with a retryable exception,
and the returned outcome is exactly the last call's outcome, so a successful
attempt's value is returned unchanged and an exhausted budget re-raises the
last exception); it retries at most `RETRIES` times; an error outcome means
the last exception was non-retryable or the budget was exhausted; and the
sleep before the `k`-th retry (1-indexed, list position `k-1`) is
`min(BACKOFF_MAX, BACKOFF_MIN * BACKOFF_BASE^(k-1))` scaled by a jitter
factor in `[0.7, 1.3)` whenever each `random.random()` draw lies in
`[0, 1)`. -/
theorem retry_call_correct (cfg : RetryCfg) (calls : Nat → Except PyExc α)
    (r : Nat → ℚ) (hr : ∀ k, 0 ≤ r k ∧ r k < 1) :
    (retry_call calls r cfg).2.length ≤ cfg.RETRIES ∧
    (∀ i, i < (retry_call calls r cfg).2.length →
      ∃ e, calls i = .error e ∧ _is_retryable_error e = true) ∧
    (retry_call calls r cfg).1 = calls ((retry_call calls r cfg).2.length) ∧
    (∀ e, (retry_call calls r cfg).1 = .error e →
      _is_retryable_error e = false ∨
        (retry_call calls r cfg).2.length = cfg.RETRIES) ∧
    (∀ i s, (retry_call calls r cfg).2[i]? = some s →
      ∃ j, 7/10 ≤ j ∧ j < 13/10 ∧
        s = min cfg.BACKOFF_MAX (cfg.BACKOFF_MIN * cfg.BACKOFF_BASE ^ i)
          * j) := by
  refine ⟨retryFrom_length_le calls r cfg cfg.RETRIES 0, ?_, ?_, ?_, ?_⟩
  · intro i hi
    simpa using retryFrom_slept_retryable calls r cfg cfg.RETRIES 0 i hi
  · simpa using retryFrom_result_eq calls r cfg cfg.RETRIES 0
  · intro e he
    exact retryFrom_error_exhausted calls r cfg cfg.RETRIES 0 e he
  · intro i s hs
    have hv := retryFrom_sleep_values calls r cfg cfg.RETRIES 0 i s hs
    refine ⟨7/10 + 6/10 * r i, ?_, ?_, ?_⟩
    · have := (hr i).1
      linarith
    · have := (hr i).2
      linarith
    · rw [hv]
      simp [backoffSleep]

/-- Witness for C2 at a concrete instance: zero jitter draws and a wrapped
call that succeeds immediately, with the source's default configuration
`RETRIES = 7`, `BACKOFF_BASE = 1.5`, `BACKOFF_MIN = 1.0`,
`BACKOFF_MAX = 8.0`. -/
theorem retry_call_correct_witness :
    (∀ k : Nat, 0 ≤ (fun _ : Nat => (0 : ℚ)) k ∧
        (fun _ : Nat => (0 : ℚ)) k < 1) ∧
    ((retry_call (fun _ => Except.ok (0 : Nat)) (fun _ => (0 : ℚ))
        ⟨7, 3/2, 1, 8⟩).2.length ≤ (7 : Nat) ∧
      (∀ i, i < (retry_call (fun _ => Except.ok (0 : Nat))
            (fun _ => (0 : ℚ)) ⟨7, 3/2, 1, 8⟩).2.length →
        ∃ e, (fun _ : Nat => Except.ok (0 : Nat)) i = .error e ∧
          _is_retryable_error e = true) ∧
      (retry_call (fun _ => Except.ok (0 : Nat)) (fun _ => (0 : ℚ))
          ⟨7, 3/2, 1, 8⟩).1 =
        (fun _ : Nat => Except.ok (0 : Nat))
          ((retry_call (fun _ => Except.ok (0 : Nat)) (fun _ => (0 : ℚ))
            ⟨7, 3/2, 1, 8⟩).2.length) ∧
      (∀ e, (retry_call (fun _ => Except.ok (0 : Nat)) (fun _ => (0 : ℚ))
            ⟨7, 3/2, 1, 8⟩).1 = .error e →
        _is_retryable_error e = false ∨
          (retry_call (fun _ => Except.ok (0 : Nat)) (fun _ => (0 : ℚ))
            ⟨7, 3/2, 1, 8⟩).2.length = (7 : Nat)) ∧
      (∀ i s, (retry_call (fun _ => Except.ok (0 : Nat)) (fun _ => (0 : ℚ))
            ⟨7, 3/2, 1, 8⟩).2[i]? = some s →
        ∃ j, 7/10 ≤ j ∧ j < 13/10 ∧
          s = min (8 : ℚ) (1 * (3/2 : ℚ) ^ i) * j)) :=
  ⟨fun _ => by norm_num,
    retry_call_correct ⟨7, 3/2, 1, 8⟩ (fun _ => Except.ok (0 : Nat))
      (fun _ => (0 : ℚ)) (fun _ => by norm_num)⟩

end MediaRetention

namespace Pagination

/-- Inner attempt loop of `flavor_assets_for_entry`: Python's
`for attempt in range(HTTP_RETRIES): try ... break; except ... else: raise
last_err`. `resp a` is the outcome of HTTP attempt `a` for the current page;
on success the loop breaks with the response, and if every attempt fails the
last error is re-raised (`none` models the degenerate raise of a `None`
`last_err` when `HTTP_RETRIES = 0`). -/
def tryAttempts (resp : Nat → Except ε β) :
    Nat → Nat → Option ε → Except (Option ε) β
  | 0, _, last => .error last
  | t + 1, a, _ =>
    match resp a with
    | .ok v => .ok v
    | .error e => tryAttempts resp t (a + 1) (some e)

/-- The retried `client.flavorAsset.list` call for one page. -/
def attemptPage (resp : Nat → Nat → Except ε β) (tries page : Nat) :
    Except (Option ε) β :=
  tryAttempts (resp page) tries 0 none

/-- Outer paging loop of `flavor_assets_for_entry`: starting at `pageIndex`,
extend `out` with the page's objects, stop when the page is shorter than
`pageSize`, else increment `pageIndex` by 1. `fuel` bounds the number of
iterations we unfold; `none` means the loop is still running after `fuel`
iterations. -/
def pagedListLoop (resp : Nat → Nat → Except ε (List α))
    (tries pageSize : Nat) :
    Nat → Nat → List α → Option (Except (Option ε) (List α))
  | 0, _, _ => none
  | fuel + 1, pageIndex, out =>
    match attemptPage resp tries pageIndex with
    | .error e => some (.error e)
    | .ok objs =>
      let out := out ++ objs
      if objs.length < pageSize then some (.ok out)
      else pagedListLoop resp tries pageSize fuel (pageIndex + 1) out

/-- `flavor_assets_for_entry`: `pageSize=500, pageIndex=1`, empty `out`. -/
def flavor_assets_for_entry (resp : Nat → Nat → Except ε (List α))
    (tries fuel : Nat) : Option (Except (Option ε) (List α)) :=
  pagedListLoop resp tries 500 fuel 1 []

/-- A category as seen by `get_existing_channel_names`: only `fullName`. -/
structure Category where
  fullName : String

/-- `full_path.split(">")[-1].strip()`. -/
def lastSegment (fullPath : String) : String :=
  ((fullPath.splitOn ">").getLastD "").trim

/-- The body of the `for category in response.objects` loop: add the last
segment of each full name that starts with the configured prefix. -/
def addPageNames (pfx : String) (cats : List Category)
    (acc : Finset String) : Finset String :=
  cats.foldl (fun s c =>
    let fullPath := c.fullName.trim
    if fullPath.startsWith pfx then insert (lastSegment fullPath) s
    else s) acc

/-- Paging loop of `get_existing_channel_names` (pageSize 500, starting at
pageIndex 1, accumulating a set). -/
def channelNamesLoop (server : Nat → List Category) (pfx : String) :
    Nat → Nat → Finset String → Option (Finset String)
  | 0, _, _ => none
  | fuel + 1, pageIndex, acc =>
    let objs := server pageIndex
    let acc := addPageNames pfx objs acc
    if objs.length < 500 then some acc
    else channelNamesLoop server pfx fuel (pageIndex + 1) acc

/-- `get_existing_channel_names()`. -/
def get_existing_channel_names (server : Nat → List Category)
    (pfx : String) (fuel : Nat) : Option (Finset String) :=
  channelNamesLoop server pfx fuel 1 ∅

theorem tryAttempts_ok (resp : Nat → Except ε β) (v : β)
    (h : resp 0 = .ok v) (t : Nat) (ht : 1 ≤ t) (last : Option ε) :
    tryAttempts resp t 0 last = .ok v := by
  rcases t with _ | t
  · omega
  · simp [tryAttempts, h]

theorem pagedListLoop_spec (resp : Nat → Nat → Except ε (List α))
    (server : Nat → List α) (tries : Nat) (htries : 1 ≤ tries)
    (hresp : ∀ p, resp p 0 = .ok (server p)) (q : Nat)
    (hq : (server q).length < 500) :
    ∀ fuel p acc, p ≤ q → q + 1 ≤ fuel + p →
      (∀ m, p ≤ m → m < q → ¬ (server m).length < 500) →
      pagedListLoop resp tries 500 fuel p acc =
        some (.ok (acc ++ (List.range' p (q - p + 1)).flatMap server)) := by
  intro fuel
  induction fuel with
  | zero => intro p acc hpq hf hmin; omega
  | succ f ih =>
    intro p acc hpq hf hmin
    rw [pagedListLoop]
    rw [show attemptPage resp tries p = .ok (server p) from
      tryAttempts_ok (resp p) (server p) (hresp p) tries htries none]
    simp only []
    by_cases hshort : (server p).length < 500
    · have hpq' : p = q := by
        by_contra hne
        exact hmin p (by omega) (by omega) hshort
      subst hpq'
      rw [if_pos hshort]
      simp [List.range'_succ]
    · rw [if_neg hshort]
      have hlt : p < q := by
        rcases Nat.lt_or_ge p q with h | h
        · exact h
        · have : p = q := by omega
          subst this
          exact absurd hq hshort
      rw [ih (p + 1) (acc ++ server p) (by omega) (by omega)
          (fun m h1 h2 => hmin m (by omega) h2),
        show q - (p + 1) + 1 = q - p from by omega, List.range'_succ]
      simp [List.append_assoc]

theorem channelNamesLoop_spec (server : Nat → List Category) (pfx : String)
    (q : Nat) (hq : (server q).length < 500) :
    ∀ fuel p acc, p ≤ q → q + 1 ≤ fuel + p →
      (∀ m, p ≤ m → m < q → ¬ (server m).length < 500) →
      channelNamesLoop server pfx fuel p acc =
        some ((List.range' p (q - p + 1)).foldl
          (fun s i => addPageNames pfx (server i) s) acc) := by
  intro fuel
  induction fuel with
  | zero => intro p acc hpq hf hmin; omega
  | succ f ih =>
    intro p acc hpq hf hmin
    simp only [channelNamesLoop]
    by_cases hshort : (server p).length < 500
    · have hpq' : p = q := by
        by_contra hne
        exact hmin p (by omega) (by omega) hshort
      subst hpq'
      rw [if_pos hshort]
      simp [List.range'_succ]
    · rw [if_neg hshort]
      have hlt : p < q := by
        rcases Nat.lt_or_ge p q with h | h
        · exact h
        · have : p = q := by omega
          subst this
          exact absurd hq hshort
      rw [ih (p + 1) (addPageNames pfx (server p) acc) (by omega) (by omega)
          (fun m h1 h2 => hmin m (by omega) h2),
        show q - (p + 1) + 1 = q - p from by omega, List.range'_succ]
      simp

/-- C3: with `server p` the objects the service returns for page `p` (and,
for the flavor loop, every page request succeeding on its first HTTP
attempt), both pagination loops request consecutive pages starting at
pageIndex 1, stop at the first page `q` holding fewer than 500 objects, and
terminate whenever such a page exists (any iteration budget `fuel ≥ q`
yields the same final result): `flavor_assets_for_entry` returns the
concatenation of pages `1..q` in request order, and
`get_existing_channel_names` returns the set of last path segments
collected over pages `1..q`. -/
theorem pagination_exhausts
    (resp : Nat → Nat → Except ε (List α)) (server : Nat → List α)
    (tries : Nat) (htries : 1 ≤ tries)
    (hresp : ∀ p, resp p 0 = .ok (server p))
    (q : Nat) (hq1 : 1 ≤ q) (hq : (server q).length < 500)
    (hmin : ∀ m, 1 ≤ m → m < q → ¬ (server m).length < 500)
    (serverC : Nat → List Category) (pfx : String)
    (qc : Nat) (hqc1 : 1 ≤ qc) (hqc : (serverC qc).length < 500)
    (hminc : ∀ m, 1 ≤ m → m < qc → ¬ (serverC m).length < 500) :
    (∀ fuel, q ≤ fuel →
      flavor_assets_for_entry resp tries fuel =
        some (.ok ((List.range' 1 q).flatMap server))) ∧
    (∀ fuel, qc ≤ fuel →
      get_existing_channel_names serverC pfx fuel =
        some ((List.range' 1 qc).foldl
          (fun s i => addPageNames pfx (serverC i) s) ∅)) := by
  constructor
  · intro fuel hfuel
    have h := pagedListLoop_spec resp server tries htries hresp q hq
      fuel 1 [] hq1 (by omega) (fun m h1 h2 => hmin m h1 h2)
    simp only [flavor_assets_for_entry]
    rw [h, show q - 1 + 1 = q from by omega]
    simp
  · intro fuel hfuel
    have h := channelNamesLoop_spec serverC pfx qc hqc
      fuel 1 ∅ hqc1 (by omega) (fun m h1 h2 => hminc m h1 h2)
    simp only [get_existing_channel_names]
    rw [h, show qc - 1 + 1 = qc from by omega]

/-- Witness for C3: a service whose very first page is empty (hence short),
with the source default `HTTP_RETRIES = 3`. -/
theorem pagination_exhausts_witness :
    ((1 : Nat) ≤ 3 ∧ (1 : Nat) ≤ 1 ∧
      (([] : List Nat).length < 500) ∧ (([] : List Category).length < 500)) ∧
    ((∀ fuel, 1 ≤ fuel →
      flavor_assets_for_entry
          (fun _ _ => (Except.ok [] : Except Unit (List Nat))) 3 fuel =
        some (.ok ((List.range' 1 1).flatMap
          (fun _ => ([] : List Nat))))) ∧
    (∀ fuel, 1 ≤ fuel →
      get_existing_channel_names (fun _ => ([] : List Category))
          "Site>site>channels" fuel =
        some ((List.range' 1 1).foldl
          (fun s i => addPageNames "Site>site>channels"
            ((fun _ => ([] : List Category)) i) s) ∅))) :=
  ⟨⟨by norm_num, by norm_num, by norm_num, by norm_num⟩,
    pagination_exhausts (fun _ _ => (Except.ok [] : Except Unit (List Nat)))
      (fun _ => ([] : List Nat)) 3 (by norm_num) (fun _ => rfl)
      1 le_rfl (by norm_num) (fun m h1 h2 => absurd h2 (by omega))
      (fun _ => ([] : List Category)) "Site>site>channels"
      1 le_rfl (by norm_num) (fun m h1 h2 => absurd h2 (by omega))⟩

end Pagination

namespace PyStr

/-- Python's whitespace set for `str.strip()` (ASCII whitespace). -/
def pyIsSpace (c : Char) : Bool :=
  c == ' ' || c == '\t' || c == '\n' || c == '\r' ||
    c == '\x0b' || c == '\x0c'

/-- Python `s.strip()`: drop leading and trailing whitespace. -/
def pyStrip (s : String) : String :=
  ⟨((s.data.dropWhile pyIsSpace).reverse.dropWhile pyIsSpace).reverse⟩

/-- Python `s.upper()` on ASCII text. -/
def pyUpper (s : String) : String :=
  ⟨s.data.map Char.toUpper⟩

end PyStr

namespace AddChapters

open PyStr

/-- One data row of the input CSV, with the five expected columns. -/
structure CsvRow where
  entry_id : String
  timecode : String
  chapter_title : String
  chapter_description : String
  search_tags : String

/-- `expected_headers` from add-chapters.py. -/
def expected_headers : List String :=
  ["entry_id", "timecode", "chapter_title", "chapter_description",
   "search_tags"]

/-- `actual_headers = [h for h in reader.fieldnames if h and h.strip() != ""]`. -/
def actualHeaders (fieldnames : List String) : List String :=
  fieldnames.filter (fun h => !(h == "") && !(pyStrip h == ""))

/-- `re.match(r"^\d{2}:\d{2}:\d{2}$", timecode)` as a Boolean on the
(stripped, hence newline-free) timecode. -/
def validate_timecode_format (t : String) : Bool :=
  match t.toList with
  | [h1, h2, c1, m1, m2, c2, s1, s2] =>
      h1.isDigit && h2.isDigit && (c1 == ':') && m1.isDigit && m2.isDigit
        && (c2 == ':') && s1.isDigit && s2.isDigit
  | _ => false

/-- Python `str.split(sep)` with an explicit one-character separator: split
at every occurrence, keeping empty fields. -/
def splitOnChar (sep : Char) : List Char → List (List Char)
  | [] => [[]]
  | c :: rest =>
    match splitOnChar sep rest with
    | [] => [[]]
    | w :: ws => if c = sep then [] :: w :: ws else (c :: w) :: ws

/-- Decimal value of a digit string (used only on all-digit input). -/
def digitsVal (cs : List Char) : Nat :=
  cs.foldl (fun acc c => acc * 10 + (c.toNat - '0'.toNat)) 0

/-- Python `int(s)` on a plain digit string; `none` models the raised
`ValueError` on malformed input. -/
def parseIntOpt (cs : List Char) : Option Nat :=
  if !cs.isEmpty && cs.all Char.isDigit then some (digitsVal cs) else none

/-- `timecode_to_milliseconds`:
`hh, mm, ss = map(int, timecode.split(":"))` and
`hh*3600000 + mm*60000 + ss*1000`; `none` models a raised exception. -/
def timecode_to_milliseconds (t : String) : Option Nat :=
  match splitOnChar ':' t.toList with
  | [hh, mm, ss] =>
    match parseIntOpt hh, parseIntOpt mm, parseIntOpt ss with
    | some h, some m, some s => some (h * 3600000 + m * 60000 + s * 1000)
    | _, _, _ => none
  | _ => none

/-- The cue point passed to `client.cuePoint.cuePoint.add` for one row. -/
structure ChapterCall where
  entryId : String
  tags : String
  startTime : Nat
  description : String
  title : String
deriving DecidableEq

/-- The body of the row loop: strip all five fields, skip the row when the
timecode is malformed, otherwise add a chapter cue point at the computed
start time. -/
def processRow (r : CsvRow) : Option ChapterCall :=
  let entry_id := pyStrip r.entry_id
  let timecode := pyStrip r.timecode
  let chapter_title := pyStrip r.chapter_title
  let chapter_description := pyStrip r.chapter_description
  let search_tags := pyStrip r.search_tags
  if validate_timecode_format timecode then
    match timecode_to_milliseconds timecode with
    | some ms =>
      some ⟨entry_id, search_tags, ms, chapter_description, chapter_title⟩
    | none => none
  else none

/-- The whole script run after opening the CSV: reject the file with exit
status 1 when the non-empty headers differ from `expected_headers`
(before any cue point is added), else process every row in order. -/
def add_chapters (fieldnames : List String) (rows : List CsvRow) :
    Except Nat (List ChapterCall) :=
  if actualHeaders fieldnames = expected_headers then
    .ok (rows.filterMap processRow)
  else .error 1

theorem isDigit_ne_colon {c : Char} (h : c.isDigit = true) : ¬ c = ':' := by
  intro he
  subst he
  exact absurd h (by decide)

theorem validate_decomp (t : String)
    (h : validate_timecode_format t = true) :
    ∃ h1 h2 m1 m2 s1 s2 : Char,
      t.toList = [h1, h2, ':', m1, m2, ':', s1, s2] ∧
      h1.isDigit ∧ h2.isDigit ∧ m1.isDigit ∧ m2.isDigit ∧
      s1.isDigit ∧ s2.isDigit := by
  rcases ht : t.toList with _ | ⟨a, _ | ⟨b, _ | ⟨c, _ | ⟨d, _ | ⟨e, _ |
    ⟨f, _ | ⟨g, _ | ⟨k, _ | ⟨l, rest⟩⟩⟩⟩⟩⟩⟩⟩⟩ <;>
    simp only [validate_timecode_format, ht] at h <;>
    try exact absurd h (by decide)
  simp only [Bool.and_eq_true, beq_iff_eq] at h
  obtain ⟨⟨⟨⟨⟨⟨⟨hd1, hd2⟩, hc1⟩, hd3⟩, hd4⟩, hc2⟩, hd5⟩, hd6⟩ := h
  subst hc1
  subst hc2
  exact ⟨a, b, d, e, g, k, rfl, hd1, hd2, hd3, hd4, hd5, hd6⟩

theorem timecode_ms_decomp (t : String) (h1 h2 m1 m2 s1 s2 : Char)
    (ht : t.toList = [h1, h2, ':', m1, m2, ':', s1, s2])
    (hd1 : h1.isDigit) (hd2 : h2.isDigit) (hd3 : m1.isDigit)
    (hd4 : m2.isDigit) (hd5 : s1.isDigit) (hd6 : s2.isDigit) :
    timecode_to_milliseconds t =
      some (((h1.toNat - '0'.toNat) * 10 + (h2.toNat - '0'.toNat)) * 3600000
        + ((m1.toNat - '0'.toNat) * 10 + (m2.toNat - '0'.toNat)) * 60000
        + ((s1.toNat - '0'.toNat) * 10 + (s2.toNat - '0'.toNat)) * 1000) := by
  have n1 := isDigit_ne_colon hd1
  have n2 := isDigit_ne_colon hd2
  have n3 := isDigit_ne_colon hd3
  have n4 := isDigit_ne_colon hd4
  have n5 := isDigit_ne_colon hd5
  have n6 := isDigit_ne_colon hd6
  simp only [timecode_to_milliseconds, ht]
  simp [splitOnChar, n1, n2, n3, n4, n5, n6, parseIntOpt, digitsVal,
    hd1, hd2, hd3, hd4, hd5, hd6]

/-- C5: the script accepts the CSV only when the non-empty headers are
exactly `entry_id, timecode, chapter_title, chapter_description,
search_tags` in order, exiting with status 1 (hence producing no cue-point
call) on any other header list; an accepted file yields exactly the calls
of the row loop; a row whose stripped timecode fails HH:MM:SS validation
produces no API call; and every produced call's start time is
`hh*3600000 + mm*60000 + ss*1000` for the two-digit components of its
timecode. -/
theorem add_chapters_correct (fieldnames : List String)
    (rows : List CsvRow) :
    (add_chapters fieldnames rows = .error 1 ↔
      fieldnames.filter (fun h => !(h == "") && !(pyStrip h == "")) ≠
        ["entry_id", "timecode", "chapter_title", "chapter_description",
         "search_tags"]) ∧
    (∀ calls, add_chapters fieldnames rows = .ok calls →
      calls = rows.filterMap processRow) ∧
    (∀ r : CsvRow, validate_timecode_format (pyStrip r.timecode) = false →
      processRow r = none) ∧
    (∀ r call, processRow r = some call →
      ∃ h1 h2 m1 m2 s1 s2 : Char,
        (pyStrip r.timecode).toList = [h1, h2, ':', m1, m2, ':', s1, s2] ∧
        h1.isDigit ∧ h2.isDigit ∧ m1.isDigit ∧ m2.isDigit ∧
        s1.isDigit ∧ s2.isDigit ∧
        call.startTime =
          ((h1.toNat - '0'.toNat) * 10 + (h2.toNat - '0'.toNat)) * 3600000
          + ((m1.toNat - '0'.toNat) * 10 + (m2.toNat - '0'.toNat)) * 60000
          + ((s1.toNat - '0'.toNat) * 10 + (s2.toNat - '0'.toNat)) * 1000) := by
  refine ⟨?_, ?_, ?_, ?_⟩
  · rw [add_chapters]
    split_ifs with hh
    · simp only [actualHeaders, expected_headers] at hh
      simp [hh]
    · simp only [actualHeaders, expected_headers] at hh
      simp [hh]
  · intro calls hc
    rw [add_chapters] at hc
    split_ifs at hc with hh
    simpa using hc.symm
  · intro r hv
    simp [processRow, hv]
  · intro r call h
    by_cases hv : validate_timecode_format (pyStrip r.timecode)
    · obtain ⟨h1, h2, m1, m2, s1, s2, ht, hd1, hd2, hd3, hd4, hd5, hd6⟩ :=
        validate_decomp _ hv
      have hms := timecode_ms_decomp _ h1 h2 m1 m2 s1 s2 ht
        hd1 hd2 hd3 hd4 hd5 hd6
      refine ⟨h1, h2, m1, m2, s1, s2, ht, hd1, hd2, hd3, hd4, hd5, hd6, ?_⟩
      simp only [processRow, if_pos hv, hms] at h
      obtain rfl := Option.some.inj h
      rfl
    · simp [processRow, hv] at h

/-- Witness for C5: a well-formed file with one row whose timecode
`12:34:56` yields a chapter at 45,296,000 ms. -/
theorem add_chapters_correct_witness :
    add_chapters expected_headers
        [⟨"e1", "12:34:56", "ti", "de", "tg"⟩] =
      .ok [⟨"e1", "tg", 45296000, "de", "ti"⟩] ∧
    ([⟨"e1", "tg", 45296000, "de", "ti"⟩] : List ChapterCall) =
      [(⟨"e1", "12:34:56", "ti", "de", "tg"⟩ : CsvRow)].filterMap
        processRow := by
  constructor
  · have h2 : [(⟨"e1", "12:34:56", "ti", "de", "tg"⟩ : CsvRow)].filterMap
        processRow = [⟨"e1", "tg", 45296000, "de", "ti"⟩] := by decide
    rw [add_chapters, if_pos (by decide), h2]
  · exact ((add_chapters_correct expected_headers
      [⟨"e1", "12:34:56", "ti", "de", "tg"⟩]).2.1 _
        (by rw [add_chapters, if_pos (by decide)]
            exact congrArg Except.ok (by decide)))

end AddChapters

namespace DeleteEntries

open AddChapters PyStr

/-- Python `s.strip(chars)` for a single character: drop that character
from both ends. -/
def stripChar (q : Char) (s : String) : String :=
  ⟨((s.data.dropWhile (· == q)).reverse.dropWhile (· == q)).reverse⟩

/-- The fields of a retrieved entry used by delete-entries.py. -/
structure Entry where
  name : String
  userId : String
  duration : Int
  plays : Int
deriving DecidableEq

/-- One row of the preview/result report dict. `none` renders as the empty
CSV cell for entries that could not be retrieved. -/
structure ReportRow where
  entry_id : String
  entry_name : String
  owner_user_id : String
  duration_seconds : Option Int
  plays : Option Int
  status : String
deriving DecidableEq

/-- The environment variables the selector reads (raw values). -/
structure Env where
  csvFilenameRaw : String
  entryIdColumnHeaderRaw : String
  entryIdsRaw : String

/-- `CSV_FILENAME = os.getenv("CSV_FILENAME", "").strip()`. -/
def CSV_FILENAME (env : Env) : String := pyStrip env.csvFilenameRaw

/-- `ENTRY_ID_COLUMN_HEADER = os.getenv(...).strip()`. -/
def ENTRY_ID_COLUMN_HEADER (env : Env) : String :=
  pyStrip env.entryIdColumnHeaderRaw

/-- `get_env_csv`: split on commas, strip, drop empties. -/
def get_env_csv (raw : String) : List String :=
  ((splitOnChar ',' raw.data).map (fun cs => pyStrip ⟨cs⟩)).filter
    (fun p => !(p == ""))

/-- `ENTRY_IDS = get_env_csv("ENTRY_IDS")`. -/
def ENTRY_IDS (env : Env) : List String := get_env_csv env.entryIdsRaw

/-- The parsed CSV file behind `csv.DictReader`: a header row and the data
rows' cells. -/
structure CsvFile where
  headers : List String
  rows : List (List String)

/-- `row.get(col, "")` of a `DictReader` row whose fieldnames were
normalized with `h.strip().strip('"')`: cells are keyed positionally and a
later duplicate header overwrites an earlier one. -/
def rowGet (headers : List String) (cells : List String) (col : String) :
    String :=
  ((((headers.map (fun h => stripChar '"' (pyStrip h))).zip
      cells).reverse.find? (fun p => p.1 == col)).map Prod.snd).getD ""

/-- `load_entry_ids_from_csv()`: empty when either config value is missing,
`sys.exit(2)` (modelled as `.error 2`) when the file cannot be read, and
otherwise the non-empty stripped values of the configured column. -/
def load_entry_ids_from_csv (env : Env) (file : Except Unit CsvFile) :
    Except Nat (List String) :=
  if CSV_FILENAME env == "" || ENTRY_ID_COLUMN_HEADER env == "" then .ok []
  else
    match file with
    | .error _ => .error 2
    | .ok f =>
      .ok (f.rows.filterMap (fun cells =>
        let eid := pyStrip (rowGet f.headers cells
          (ENTRY_ID_COLUMN_HEADER env))
        if eid == "" then none else some eid))

/-- Outcome of the entry-ID selection block. -/
inductive SelectResult where
  | ids (l : List String)
  | exitNoConfig
  | exitCsvFailure
deriving DecidableEq

/-- The `if CSV_FILENAME: ... elif ENTRY_IDS: ... else: exit()` block. -/
def select_entry_ids (env : Env) (file : Except Unit CsvFile) :
    SelectResult :=
  if !(CSV_FILENAME env == "") then
    match load_entry_ids_from_csv env file with
    | .ok l => .ids l
    | .error _ => .exitCsvFailure
  else if !(ENTRY_IDS env).isEmpty then .ids (ENTRY_IDS env)
  else .exitNoConfig

/-- The preview-phase row for one entry ID: a successful
`client.baseEntry.get` yields a FOUND row with the entry's metadata, a
`KalturaException` yields a NOT FOUND row with empty cells. -/
def mkReportRow (lookup : String → Option Entry) (eid : String) :
    ReportRow :=
  match lookup eid with
  | some e => ⟨eid, e.name, e.userId, some e.duration, some e.plays, "FOUND"⟩
  | none => ⟨eid, "", "", none, none, "NOT FOUND"⟩

/-- The two destructive SDK calls. -/
inductive EntryAction where
  | delete
  | recycle
deriving DecidableEq

/-- The `match confirm.strip().upper()` block: the typed confirmation
selects `baseEntry.delete` or `baseEntry.recycle`, anything else aborts. -/
def selectAction (confirm : String) : Option (EntryAction × String) :=
  if pyUpper (pyStrip confirm) == "DELETE" then some (.delete, "DELETED")
  else if pyUpper (pyStrip confirm) == "RECYCLE" then
    some (.recycle, "RECYCLED")
  else none

/-- The action loop issues exactly one destructive call for each report row
whose status is FOUND, in report order, skipping every other row. -/
def actionCalls (act : EntryAction) (report : List ReportRow) :
    List (EntryAction × String) :=
  (report.filter (fun row => row.status == "FOUND")).map
    (fun row => (act, row.entry_id))

/-- The observable outcome of one script run, with the destructive calls
performed. -/
inductive RunOutcome where
  | exitConfig
  | exitCsv
  | exitNoValid (preview : List ReportRow)
  | aborted (preview : List ReportRow)
  | completed (log : String) (preview : List ReportRow)
      (calls : List (EntryAction × String))
deriving DecidableEq

/-- The script end to end: select IDs, build the preview report, exit early
when no entry was retrievable, ask for confirmation, then run the action
loop. -/
def run (env : Env) (file : Except Unit CsvFile)
    (lookup : String → Option Entry) (confirm : String) : RunOutcome :=
  match select_entry_ids env file with
  | .exitNoConfig => .exitConfig
  | .exitCsvFailure => .exitCsv
  | .ids entry_ids =>
    let report := entry_ids.map (mkReportRow lookup)
    if report.all (fun r => !(r.status == "FOUND")) then .exitNoValid report
    else
      match selectAction confirm with
      | none => .aborted report
      | some (act, actionLog) =>
        .completed actionLog report (actionCalls act report)

/-- The destructive calls a run performed. -/
def destructiveCalls (o : RunOutcome) : List (EntryAction × String) :=
  match o with
  | .completed _ _ calls => calls
  | _ => []

end DeleteEntries

namespace DeleteEntries

open PyStr

/-- C1: no delete or recycle call is ever issued unless the stripped,
uppercased confirmation is exactly DELETE or RECYCLE: on any other input
the run performs no destructive call, and every call a run does perform
uses `baseEntry.delete` exactly when the confirmation was DELETE and
`baseEntry.recycle` exactly when it was RECYCLE. -/
theorem confirm_gate (env : Env) (file : Except Unit CsvFile)
    (lookup : String → Option Entry) (confirm : String) :
    ((¬ pyUpper (pyStrip confirm) = "DELETE") →
      (¬ pyUpper (pyStrip confirm) = "RECYCLE") →
      destructiveCalls (run env file lookup confirm) = []) ∧
    (∀ a eid, (a, eid) ∈ destructiveCalls (run env file lookup confirm) →
      (pyUpper (pyStrip confirm) = "DELETE" ∧ a = EntryAction.delete) ∨
      (pyUpper (pyStrip confirm) = "RECYCLE" ∧
        a = EntryAction.recycle)) := by
  cases hsel : select_entry_ids env file with
  | exitNoConfig => simp [run, hsel, destructiveCalls]
  | exitCsvFailure => simp [run, hsel, destructiveCalls]
  | ids l =>
    by_cases hall : (l.map (mkReportRow lookup)).all
        (fun r => !(r.status == "FOUND"))
    · simp [run, hsel, hall, destructiveCalls]
    · by_cases hd : pyUpper (pyStrip confirm) = "DELETE"
      · constructor
        · intro h1 _
          exact absurd hd h1
        · intro a eid hmem
          left
          refine ⟨hd, ?_⟩
          simp [run, hsel, hall, selectAction, hd, destructiveCalls,
            actionCalls] at hmem
          obtain ⟨row, -, ha, -⟩ := hmem
          exact ha.symm
      · by_cases hr : pyUpper (pyStrip confirm) = "RECYCLE"
        · constructor
          · intro _ h2
            exact absurd hr h2
          · intro a eid hmem
            right
            refine ⟨hr, ?_⟩
            simp [run, hsel, hall, selectAction, hd, hr, destructiveCalls,
              actionCalls] at hmem
            obtain ⟨row, -, ha, -⟩ := hmem
            exact ha.symm
        · simp [run, hsel, hall, selectAction, hd, hr, destructiveCalls]

/-- Witness for C1: typing `nope` performs no destructive call. -/
theorem confirm_gate_witness :
    (¬ pyUpper (pyStrip "nope") = "DELETE") ∧
    (¬ pyUpper (pyStrip "nope") = "RECYCLE") ∧
    destructiveCalls (run ⟨"", "", "abc"⟩ (Except.error ())
      (fun _ => some ⟨"n", "u", 5, 2⟩) "nope") = [] :=
  ⟨by decide, by decide,
    (confirm_gate ⟨"", "", "abc"⟩ (Except.error ())
      (fun _ => some ⟨"n", "u", 5, 2⟩) "nope").1 (by decide) (by decide)⟩

/-- C6: the working set of entry IDs is resolved by exactly one selector
with fixed precedence. When `CSV_FILENAME` is set (and the column header is
configured and the file readable) the IDs are the non-empty stripped values
of the configured column, and `ENTRY_IDS` is ignored entirely; otherwise a
non-empty `ENTRY_IDS` supplies its comma-separated non-empty stripped
components; with neither, the script exits before any lookup or deletion
(the outcome is `exitConfig` for every lookup function and confirmation,
with no destructive call). -/
theorem selector_precedence (env : Env) (file : Except Unit CsvFile) :
    (∀ f, file = .ok f → ¬ CSV_FILENAME env = "" →
      ¬ ENTRY_ID_COLUMN_HEADER env = "" →
      select_entry_ids env file = .ids (f.rows.filterMap (fun cells =>
        let eid := pyStrip (rowGet f.headers cells
          (ENTRY_ID_COLUMN_HEADER env))
        if eid == "" then none else some eid))) ∧
    (∀ otherRaw, ¬ CSV_FILENAME env = "" →
      select_entry_ids ⟨env.csvFilenameRaw, env.entryIdColumnHeaderRaw,
        otherRaw⟩ file = select_entry_ids env file) ∧
    (CSV_FILENAME env = "" → ¬ ENTRY_IDS env = [] →
      select_entry_ids env file = .ids (ENTRY_IDS env)) ∧
    (CSV_FILENAME env = "" → ENTRY_IDS env = [] →
      ∀ lookup confirm, run env file lookup confirm = .exitConfig ∧
        destructiveCalls (run env file lookup confirm) = []) := by
  refine ⟨?_, ?_, ?_, ?_⟩
  · intro f hf hc hh
    subst hf
    simp [select_entry_ids, load_entry_ids_from_csv, hc, hh]
  · intro otherRaw hc
    simp only [CSV_FILENAME] at hc
    simp [select_entry_ids, load_entry_ids_from_csv, CSV_FILENAME,
      ENTRY_ID_COLUMN_HEADER, hc]
  · intro hc hi
    simp [select_entry_ids, hc, List.isEmpty_iff, hi]
  · intro hc hi lookup confirm
    have hsel : select_entry_ids env file = .exitNoConfig := by
      simp [select_entry_ids, hc, List.isEmpty_iff, hi]
    exact ⟨by simp [run, hsel], by simp [run, hsel, destructiveCalls]⟩

/-- Witness for C6: with neither `CSV_FILENAME` nor `ENTRY_IDS` provided,
the run exits without any call. -/
theorem selector_precedence_witness :
    CSV_FILENAME ⟨"", "", " , "⟩ = "" ∧ ENTRY_IDS ⟨"", "", " , "⟩ = [] ∧
    (run ⟨"", "", " , "⟩ (Except.error ()) (fun _ => none) "DELETE" =
        .exitConfig ∧
      destructiveCalls (run ⟨"", "", " , "⟩ (Except.error ())
        (fun _ => none) "DELETE") = []) :=
  ⟨by decide, by decide,
    (selector_precedence ⟨"", "", " , "⟩ (Except.error ())).2.2.2
      (by decide) (by decide) (fun _ => none) "DELETE"⟩

/-- C10: the action loop skips every report row whose status is not FOUND,
so every destructive call targets a row with a FOUND preview (equivalently,
an entry the preview lookup retrieved); and when no selected entry is
retrievable the run ends at the preview early-exit (carrying the preview
report), before any confirmation or destructive call, whatever the
confirmation input would have been. -/
theorem preview_gate (env : Env) (file : Except Unit CsvFile)
    (lookup : String → Option Entry) (confirm : String) :
    (∀ act report a eid, (a, eid) ∈ actionCalls act report →
      ∃ row ∈ report, row.entry_id = eid ∧ row.status = "FOUND") ∧
    (∀ a eid, (a, eid) ∈ destructiveCalls (run env file lookup confirm) →
      ∃ e, lookup eid = some e) ∧
    (∀ l, select_entry_ids env file = .ids l →
      (∀ id ∈ l, lookup id = none) →
      run env file lookup confirm =
        .exitNoValid (l.map (mkReportRow lookup)) ∧
      destructiveCalls (run env file lookup confirm) = []) := by
  refine ⟨?_, ?_, ?_⟩
  · intro act report a eid hmem
    simp only [actionCalls, List.mem_map, List.mem_filter] at hmem
    obtain ⟨row, ⟨hrow, hst⟩, hpair⟩ := hmem
    refine ⟨row, hrow, ?_, by simpa using hst⟩
    have := congrArg Prod.snd hpair
    simpa using this
  · intro a eid hmem
    cases hsel : select_entry_ids env file with
    | exitNoConfig => simp [run, hsel, destructiveCalls] at hmem
    | exitCsvFailure => simp [run, hsel, destructiveCalls] at hmem
    | ids l =>
      by_cases hall : (l.map (mkReportRow lookup)).all
          (fun r => !(r.status == "FOUND"))
      · simp [run, hsel, hall, destructiveCalls] at hmem
      · cases hact : selectAction confirm with
        | none => simp [run, hsel, hall, hact, destructiveCalls] at hmem
        | some p =>
          simp [run, hsel, hall, hact, destructiveCalls, actionCalls,
            List.mem_map, List.mem_filter] at hmem
          obtain ⟨row, ⟨⟨id, hid, hrow⟩, hst⟩, -, heid⟩ := hmem
          subst heid
          subst hrow
          unfold mkReportRow at hst ⊢
          cases hl : lookup id with
          | some e => simp [hl]
          | none => rw [hl] at hst; simp at hst
  · intro l hsel hnone
    have hall : (l.map (mkReportRow lookup)).all
        (fun r => !(r.status == "FOUND")) = true := by
      simp only [List.all_eq_true, List.mem_map]
      rintro r ⟨id, hid, rfl⟩
      simp [mkReportRow, hnone id hid]
    exact ⟨by simp [run, hsel, hall],
      by simp [run, hsel, hall, destructiveCalls]⟩

/-- Witness for C10: a single unretrievable entry ID makes the run stop at
the preview early-exit with its NOT FOUND row and no destructive call. -/
theorem preview_gate_witness :
    select_entry_ids ⟨"", "", "e1"⟩ (Except.error ()) = .ids ["e1"] ∧
    ((fun _ : String => (none : Option Entry)) "e1" = none) ∧
    (run ⟨"", "", "e1"⟩ (Except.error ()) (fun _ => none) "DELETE" =
        .exitNoValid (["e1"].map (mkReportRow (fun _ => none))) ∧
      destructiveCalls (run ⟨"", "", "e1"⟩ (Except.error ())
        (fun _ => none) "DELETE") = []) :=
  ⟨by decide, rfl,
    (preview_gate ⟨"", "", "e1"⟩ (Except.error ())
        (fun _ => none) "DELETE").2.2 ["e1"] (by decide)
      (fun id _ => rfl)⟩

end DeleteEntries

namespace PyStr

/-- Python `s.lower()` on ASCII text. -/
def pyLower (s : String) : String :=
  ⟨s.data.map Char.toLower⟩

end PyStr

namespace DeleteCuePoints

open PyStr

/-- The `QUESTION_TYPES` dict. -/
def QUESTION_TYPES (n : Int) : Option String :=
  if n = 1 then some "Multiple Choice"
  else if n = 2 then some "True/False"
  else if n = 3 then some "Reflection Point"
  else if n = 8 then some "Open Question"
  else none

/-- An optional answer attached to a quiz-question cue point. -/
structure OptionalAnswer where
  text : String
  isCorrect : Bool
deriving DecidableEq

/-- The cue-point fields delete-cuePoints.py reads. -/
structure CuePoint where
  id : String
  userId : String
  createdAt : Int
  question : String
  answer : String
  isCorrect : Bool
  questionType : Int
  optionalAnswers : List OptionalAnswer
  title : String
  description : String
  startTime : Int
deriving DecidableEq

/-- A CSV cell: a string, or the number written for `startTime / 1000`. -/
inductive Cell where
  | s (v : String)
  | q (v : ℚ)
deriving DecidableEq

/-- The report row appended for one cue point, by cue-point type (the
branch is on the selected type, not on the individual cue point);
`fmtTime` stands for `datetime.utcfromtimestamp(...).strftime(...)`.
`none` for a type outside the three handled ones (no row appended). -/
def cueRow (fmtTime : Int → String) (cueType entry_id entry_title : String)
    (cp : CuePoint) : Option (List Cell) :=
  if cueType == "quiz.QUIZ_ANSWER" then
    some [.s entry_id, .s entry_title, .s cp.userId,
      .s (fmtTime cp.createdAt), .s cp.question, .s cp.answer,
      .s (if cp.isCorrect then "Yes" else "No")]
  else if cueType == "quiz.QUIZ_QUESTION" then
    some ([.s entry_id, .s entry_title,
      .s ((QUESTION_TYPES cp.questionType).getD "Unknown"),
      .s cp.question]
      ++ (cp.optionalAnswers.take 4).map (fun a => Cell.s a.text)
      ++ [.s (((cp.optionalAnswers.find? (fun a => a.isCorrect)).map
            (fun a => a.text)).getD "")])
  else if cueType == "thumbCuePoint.Thumb" then
    some [.s entry_id, .s entry_title, .s cp.title, .s cp.description,
      .q ((cp.startTime : ℚ) / 1000)]
  else none

/-- The inner `for cue_point in cue_points` loop for one entry: each cue
point first contributes its report row (and, for quiz answers, its user
ID), then `cuePoint.delete` is called; a delete failure raises, aborting
the rest of this entry's loop with the partial rows kept and the deletion
not counted. Returns (rows, deleted count, collected user IDs). -/
def processCues (fmtTime : Int → String)
    (cueType entry_id entry_title : String) (deleteRes : String → Bool) :
    List CuePoint → List (List Cell) × Nat × Finset String
  | [] => ([], 0, ∅)
  | cp :: rest =>
    let rows0 := match cueRow fmtTime cueType entry_id entry_title cp with
      | some row => [row]
      | none => []
    let uids0 : Finset String :=
      if cueType == "quiz.QUIZ_ANSWER" then {cp.userId} else ∅
    if deleteRes cp.id then
      let out := processCues fmtTime cueType entry_id entry_title
        deleteRes rest
      (rows0 ++ out.1, out.2.1 + 1, uids0 ∪ out.2.2)
    else (rows0, 0, uids0)

/-- Everything one entry's iteration observes: the `baseEntry.get` outcome
(the entry title, or a raised `KalturaException`), the `cuePoint.list`
outcome, and the user's typed per-entry confirmation. -/
structure EntryEnv where
  entry_id : String
  entryResult : Except Unit String
  listResult : Except Unit (List CuePoint)
  confirm : String

/-- One iteration of the outer entry loop: an exception from `get` or
`list` skips the entry; with no cue points nothing is asked or deleted;
a confirmation other than `y` (stripped, lowercased) skips deletion. -/
def processEntry (fmtTime : Int → String) (cueType : String)
    (deleteRes : String → Bool) (env : EntryEnv) :
    List (List Cell) × Nat × Finset String :=
  match env.entryResult, env.listResult with
  | .error _, _ => ([], 0, ∅)
  | .ok _, .error _ => ([], 0, ∅)
  | .ok title, .ok cues =>
    if cues.isEmpty then ([], 0, ∅)
    else if !(pyLower (pyStrip env.confirm) == "y") then ([], 0, ∅)
    else processCues fmtTime cueType env.entry_id title deleteRes cues

/-- The accumulation over all entries (rows and user IDs in entry order,
deletions summed). -/
def accumEntries (fmtTime : Int → String) (cueType : String)
    (deleteRes : String → Bool) :
    List EntryEnv → List (List Cell) × Nat × Finset String
  | [] => ([], 0, ∅)
  | env :: rest =>
    let h := processEntry fmtTime cueType deleteRes env
    let t := accumEntries fmtTime cueType deleteRes rest
    (h.1 ++ t.1, h.2.1 + t.2.1, h.2.2 ∪ t.2.2)

/-- `x[4]` as the chapter sort key (rows of the chapter report always hold
their start-time number at index 4). -/
def chapterKey (row : List Cell) : ℚ :=
  match row.get? 4 with
  | some (.q v) => v
  | _ => 0

/-- The CSV headers per cue-point type. -/
def csvHeaders (cueType : String) : Option (List String) :=
  if cueType == "quiz.QUIZ_QUESTION" then
    some ["Entry ID", "Entry Title", "Question Type", "Question",
      "Option 1", "Option 2", "Option 3", "Option 4", "Correct Answer"]
  else if cueType == "quiz.QUIZ_ANSWER" then
    some ["Entry ID", "Entry Title", "User ID", "Date Submitted",
      "Question", "Answer", "Correct"]
  else if cueType == "thumbCuePoint.Thumb" then
    some ["Entry ID", "Entry Title", "Chapter Title", "Chapter Description",
      "Start Time (Seconds)"]
  else none

/-- `list_and_delete_cue_points`: process every entry, sort chapter rows by
start time, and (for the three handled types) write the CSV whose first row
is the header. Returns the written CSV (if any) with `total_deleted` and
the collected user IDs. -/
def list_and_delete_cue_points (fmtTime : Int → String) (cueType : String)
    (deleteRes : String → Bool) (envs : List EntryEnv) :
    Option (List String × List (List Cell)) × Nat × Finset String :=
  let acc := accumEntries fmtTime cueType deleteRes envs
  let rows := if cueType == "thumbCuePoint.Thumb" then
    acc.1.mergeSort (fun a b => chapterKey a ≤ chapterKey b)
    else acc.1
  match csvHeaders cueType with
  | some headers => (some (headers, rows), acc.2.1, acc.2.2)
  | none => (none, acc.2.1, acc.2.2)

/-- Total number of cue points listed over all entries. -/
def totalCues (envs : List EntryEnv) : Nat :=
  (envs.map (fun env => match env.listResult with
    | .ok cs => cs.length
    | .error _ => 0)).sum

theorem cueRow_isSome (fmtTime : Int → String)
    (cueType entry_id entry_title : String) (cp : CuePoint)
    (htype : cueType = "quiz.QUIZ_ANSWER" ∨
      cueType = "quiz.QUIZ_QUESTION" ∨ cueType = "thumbCuePoint.Thumb") :
    (cueRow fmtTime cueType entry_id entry_title cp).isSome := by
  rcases htype with h | h | h <;> subst h <;> simp [cueRow]

theorem processCues_spec (fmtTime : Int → String)
    (cueType entry_id entry_title : String) (deleteRes : String → Bool)
    (htype : cueType = "quiz.QUIZ_ANSWER" ∨
      cueType = "quiz.QUIZ_QUESTION" ∨ cueType = "thumbCuePoint.Thumb") :
    ∀ cues : List CuePoint, (∀ cp ∈ cues, deleteRes cp.id = true) →
      (processCues fmtTime cueType entry_id entry_title deleteRes
          cues).1.length = cues.length ∧
      (processCues fmtTime cueType entry_id entry_title deleteRes
          cues).2.1 = cues.length := by
  intro cues
  induction cues with
  | nil => intro _; simp [processCues]
  | cons cp rest ih =>
    intro hdel
    have hd := hdel cp (by simp)
    have ht := ih (fun c hc => hdel c (by simp [hc]))
    obtain ⟨row, hrow⟩ := Option.isSome_iff_exists.mp
      (cueRow_isSome fmtTime cueType entry_id entry_title cp htype)
    simp [processCues, hd, hrow, ht.1, ht.2]

theorem processEntry_spec (fmtTime : Int → String) (cueType : String)
    (deleteRes : String → Bool) (env : EntryEnv)
    (htype : cueType = "quiz.QUIZ_ANSWER" ∨
      cueType = "quiz.QUIZ_QUESTION" ∨ cueType = "thumbCuePoint.Thumb")
    (t : String) (he : env.entryResult = .ok t)
    (cs : List CuePoint) (hl : env.listResult = .ok cs)
    (hdel : ∀ cp ∈ cs, deleteRes cp.id = true)
    (hc : pyLower (pyStrip env.confirm) = "y") :
    (processEntry fmtTime cueType deleteRes env).1.length = cs.length ∧
    (processEntry fmtTime cueType deleteRes env).2.1 = cs.length := by
  simp only [processEntry, he, hl]
  by_cases hemp : cs.isEmpty
  · have hnil : cs = [] := by simpa using hemp
    subst hnil
    simp
  · simp only [hemp, hc, Bool.not_false, if_false]
    simp
    exact processCues_spec fmtTime cueType env.entry_id t deleteRes htype
      cs hdel

theorem accumEntries_spec (fmtTime : Int → String) (cueType : String)
    (deleteRes : String → Bool)
    (htype : cueType = "quiz.QUIZ_ANSWER" ∨
      cueType = "quiz.QUIZ_QUESTION" ∨ cueType = "thumbCuePoint.Thumb") :
    ∀ envs : List EntryEnv,
      (∀ env ∈ envs, (∃ t, env.entryResult = Except.ok t) ∧
        (∃ cs, env.listResult = Except.ok cs ∧
          ∀ cp ∈ cs, deleteRes cp.id = true) ∧
        pyLower (pyStrip env.confirm) = "y") →
      (accumEntries fmtTime cueType deleteRes envs).1.length =
        totalCues envs ∧
      (accumEntries fmtTime cueType deleteRes envs).2.1 =
        totalCues envs := by
  intro envs
  induction envs with
  | nil => intro _; simp [accumEntries, totalCues]
  | cons env rest ih =>
    intro hok
    obtain ⟨⟨t, he⟩, ⟨cs, hl, hdel⟩, hc⟩ := hok env (by simp)
    have hrest := ih (fun e hee => hok e (by simp [hee]))
    have hhead := processEntry_spec fmtTime cueType deleteRes env htype
      t he cs hl hdel hc
    simp [accumEntries, totalCues, hl, hhead.1, hhead.2, hrest.1, hrest.2]

/-- C4: for a confirmed run over the selected cue-point type in which every
entry's lookup and listing succeed and every delete succeeds, the written
CSV has exactly one data row after the header per deleted cue point:
the number of data rows equals the returned `total_deleted`, which equals
the total number of listed cue points. -/
theorem list_and_delete_cue_points_correct (fmtTime : Int → String)
    (cueType : String) (deleteRes : String → Bool) (envs : List EntryEnv)
    (htype : cueType = "quiz.QUIZ_ANSWER" ∨
      cueType = "quiz.QUIZ_QUESTION" ∨ cueType = "thumbCuePoint.Thumb")
    (hok : ∀ env ∈ envs, (∃ t, env.entryResult = Except.ok t) ∧
      (∃ cs, env.listResult = Except.ok cs ∧
        ∀ cp ∈ cs, deleteRes cp.id = true) ∧
      pyLower (pyStrip env.confirm) = "y") :
    ∃ headers rows,
      (list_and_delete_cue_points fmtTime cueType deleteRes envs).1 =
        some (headers, rows) ∧
      rows.length =
        (list_and_delete_cue_points fmtTime cueType deleteRes envs).2.1 ∧
      (list_and_delete_cue_points fmtTime cueType deleteRes envs).2.1 =
        totalCues envs := by
  have hacc := accumEntries_spec fmtTime cueType deleteRes htype envs hok
  have hheaders : ∃ hs, csvHeaders cueType = some hs := by
    rcases htype with h | h | h <;> subst h <;> simp [csvHeaders]
  obtain ⟨hs, hhs⟩ := hheaders
  by_cases hthumb : cueType == "thumbCuePoint.Thumb"
  · refine ⟨hs, (accumEntries fmtTime cueType deleteRes envs).1.mergeSort
      (fun a b => chapterKey a ≤ chapterKey b), ?_, ?_, ?_⟩
    · simp [list_and_delete_cue_points, hhs, hthumb]
    · simp [list_and_delete_cue_points, hhs, hthumb,
        List.length_mergeSort, hacc.1, hacc.2]
    · simp [list_and_delete_cue_points, hhs, hacc.2]
  · refine ⟨hs, (accumEntries fmtTime cueType deleteRes envs).1, ?_, ?_, ?_⟩
    · simp [list_and_delete_cue_points, hhs, hthumb]
    · simp [list_and_delete_cue_points, hhs, hthumb, hacc.1, hacc.2]
    · simp [list_and_delete_cue_points, hhs, hacc.2]

/-- Witness for C4: one entry with 3 listed quiz-question cue points, a
`y` confirmation and all deletes succeeding: 3 data rows are written and
`total_deleted` is 3. -/
theorem list_and_delete_cue_points_correct_witness :
    (("quiz.QUIZ_QUESTION" : String) = "quiz.QUIZ_ANSWER" ∨
      ("quiz.QUIZ_QUESTION" : String) = "quiz.QUIZ_QUESTION" ∨
      ("quiz.QUIZ_QUESTION" : String) = "thumbCuePoint.Thumb") ∧
    totalCues [⟨"E1", Except.ok "T",
      Except.ok [⟨"c1", "u", 0, "q1", "a", true, 1, [], "t", "d", 0⟩,
        ⟨"c2", "u", 0, "q2", "a", false, 2, [], "t", "d", 0⟩,
        ⟨"c3", "u", 0, "q3", "a", true, 8, [], "t", "d", 0⟩], "y"⟩] = 3 ∧
    (∃ headers rows,
      (list_and_delete_cue_points (fun _ => "") "quiz.QUIZ_QUESTION"
        (fun _ => true)
        [⟨"E1", Except.ok "T",
          Except.ok [⟨"c1", "u", 0, "q1", "a", true, 1, [], "t", "d", 0⟩,
            ⟨"c2", "u", 0, "q2", "a", false, 2, [], "t", "d", 0⟩,
            ⟨"c3", "u", 0, "q3", "a", true, 8, [], "t", "d", 0⟩],
          "y"⟩]).1 = some (headers, rows) ∧
      rows.length =
        (list_and_delete_cue_points (fun _ => "") "quiz.QUIZ_QUESTION"
          (fun _ => true)
          [⟨"E1", Except.ok "T",
            Except.ok [⟨"c1", "u", 0, "q1", "a", true, 1, [], "t", "d", 0⟩,
              ⟨"c2", "u", 0, "q2", "a", false, 2, [], "t", "d", 0⟩,
              ⟨"c3", "u", 0, "q3", "a", true, 8, [], "t", "d", 0⟩],
            "y"⟩]).2.1 ∧
      (list_and_delete_cue_points (fun _ => "") "quiz.QUIZ_QUESTION"
        (fun _ => true)
        [⟨"E1", Except.ok "T",
          Except.ok [⟨"c1", "u", 0, "q1", "a", true, 1, [], "t", "d", 0⟩,
            ⟨"c2", "u", 0, "q2", "a", false, 2, [], "t", "d", 0⟩,
            ⟨"c3", "u", 0, "q3", "a", true, 8, [], "t", "d", 0⟩],
          "y"⟩]).2.1 =
        totalCues [⟨"E1", Except.ok "T",
          Except.ok [⟨"c1", "u", 0, "q1", "a", true, 1, [], "t", "d", 0⟩,
            ⟨"c2", "u", 0, "q2", "a", false, 2, [], "t", "d", 0⟩,
            ⟨"c3", "u", 0, "q3", "a", true, 8, [], "t", "d", 0⟩],
          "y"⟩]) :=
  ⟨Or.inr (Or.inl rfl), by decide,
    list_and_delete_cue_points_correct (fun _ => "") "quiz.QUIZ_QUESTION"
      (fun _ => true)
      [⟨"E1", Except.ok "T",
        Except.ok [⟨"c1", "u", 0, "q1", "a", true, 1, [], "t", "d", 0⟩,
          ⟨"c2", "u", 0, "q2", "a", false, 2, [], "t", "d", 0⟩,
          ⟨"c3", "u", 0, "q3", "a", true, 8, [], "t", "d", 0⟩], "y"⟩]
      (Or.inr (Or.inl rfl))
      (by
        intro env henv
        simp only [List.mem_singleton] at henv
        subst henv
        exact ⟨⟨"T", rfl⟩,
          ⟨[⟨"c1", "u", 0, "q1", "a", true, 1, [], "t", "d", 0⟩,
            ⟨"c2", "u", 0, "q2", "a", false, 2, [], "t", "d", 0⟩,
            ⟨"c3", "u", 0, "q3", "a", true, 8, [], "t", "d", 0⟩], rfl,
            by decide⟩, by decide⟩)⟩

end DeleteCuePoints

namespace MergeSubtypes

/-- `_ILLEGAL_XLSX_RE = re.compile(r"[\x00-\x08\x0B\x0C\x0E-\x1F]")`. -/
def illegalXlsx (c : Char) : Bool :=
  c.toNat ≤ 0x08 || c.toNat == 0x0B || c.toNat == 0x0C ||
    (0x0E ≤ c.toNat && c.toNat ≤ 0x1F)

/-- `scrub_text`: strip the illegal control characters, then replace the
U+2028/U+2029 line separators with spaces. -/
def scrub_text (s : String) : String :=
  ⟨(s.data.filter (fun c => !illegalXlsx c)).map
    (fun c => if c = ' ' ∨ c = ' ' then ' ' else c)⟩

/-- A row of the ALL table, split into its Entry ID cell, its Media Type
cell, and the remaining cells. -/
structure MergeRow where
  id : String
  media : String
  rest : List String
deriving DecidableEq

/-- The masked `.loc` assignments: both sets → "YouTube Quiz", YouTube only
→ "YouTube", quiz only → "Quiz", neither → unchanged. -/
def mergeRowMedia (quiz_ids yt_ids : Finset String) (row : MergeRow) :
    String :=
  if row.id ∈ yt_ids ∧ row.id ∈ quiz_ids then "YouTube Quiz"
  else if row.id ∈ yt_ids then "YouTube"
  else if row.id ∈ quiz_ids then "Quiz"
  else row.media

/-- `merge_media_subtypes`: an absent quizzes/YouTube file yields an empty
ID set; the media column is reassigned only when at least one set is
non-empty; finally every cell of every row is scrubbed. -/
def merge_media_subtypes (quizzesInput ytInput : Option (List String))
    (allRows : List MergeRow) : List MergeRow :=
  let quiz_ids : Finset String := (quizzesInput.getD []).toFinset
  let yt_ids : Finset String := (ytInput.getD []).toFinset
  let assigned := if yt_ids ≠ ∅ ∨ quiz_ids ≠ ∅ then
      allRows.map (fun row =>
        { row with media := mergeRowMedia quiz_ids yt_ids row })
    else allRows
  assigned.map (fun row =>
    ⟨scrub_text row.id, scrub_text row.media, row.rest.map scrub_text⟩)

/-- C9: `merge_media_subtypes` adds and removes no rows, touches only the
media-type column apart from control-character scrubbing of every cell,
and sets each row's media type to "YouTube Quiz" / "YouTube" / "Quiz"
according to membership of its entry ID in the two input ID sets, keeping
the (scrubbed) original value when the ID is in neither set or when both
optional inputs are absent. -/
theorem merge_media_subtypes_correct
    (quizzesInput ytInput : Option (List String))
    (allRows : List MergeRow) :
    (merge_media_subtypes quizzesInput ytInput allRows).length =
      allRows.length ∧
    (∀ (i : Nat) (row : MergeRow), allRows[i]? = some row →
      ∃ row' : MergeRow,
        (merge_media_subtypes quizzesInput ytInput allRows)[i]? =
          some row' ∧
        row'.id = scrub_text row.id ∧
        row'.rest = row.rest.map scrub_text ∧
        (row.id ∈ quizzesInput.getD [] → row.id ∈ ytInput.getD [] →
          row'.media = "YouTube Quiz") ∧
        (row.id ∉ quizzesInput.getD [] → row.id ∈ ytInput.getD [] →
          row'.media = "YouTube") ∧
        (row.id ∈ quizzesInput.getD [] → row.id ∉ ytInput.getD [] →
          row'.media = "Quiz") ∧
        ((row.id ∉ quizzesInput.getD [] ∧ row.id ∉ ytInput.getD []) ∨
            (quizzesInput = none ∧ ytInput = none) →
          row'.media = scrub_text row.media)) := by
  by_cases hg : (ytInput.getD []).toFinset ≠ (∅ : Finset String) ∨
      (quizzesInput.getD []).toFinset ≠ (∅ : Finset String)
  · have hm : merge_media_subtypes quizzesInput ytInput allRows =
        allRows.map (fun row =>
          ⟨scrub_text row.id,
            scrub_text (mergeRowMedia (quizzesInput.getD []).toFinset
              (ytInput.getD []).toFinset row),
            row.rest.map scrub_text⟩) := by
      simp only [merge_media_subtypes]
      rw [if_pos hg, List.map_map]
      rfl
    constructor
    · rw [hm]
      simp
    · intro i row hrow
      refine ⟨⟨scrub_text row.id,
        scrub_text (mergeRowMedia (quizzesInput.getD []).toFinset
          (ytInput.getD []).toFinset row), row.rest.map scrub_text⟩,
        ?_, rfl, rfl, ?_, ?_, ?_, ?_⟩
      · rw [hm]
        simp [hrow]
      · intro hq hy
        simp only [mergeRowMedia]
        rw [if_pos ⟨List.mem_toFinset.mpr hy, List.mem_toFinset.mpr hq⟩]
        decide
      · intro hq hy
        simp only [mergeRowMedia]
        rw [if_neg (fun hcon => hq (List.mem_toFinset.mp hcon.2)),
          if_pos (List.mem_toFinset.mpr hy)]
        decide
      · intro hq hy
        simp only [mergeRowMedia]
        rw [if_neg (fun hcon => hy (List.mem_toFinset.mp hcon.1)),
          if_neg (fun hcon => hy (List.mem_toFinset.mp hcon)),
          if_pos (List.mem_toFinset.mpr hq)]
        decide
      · rintro (⟨hq, hy⟩ | ⟨hq, hy⟩)
        · simp only [mergeRowMedia]
          rw [if_neg (fun hcon => hy (List.mem_toFinset.mp hcon.1)),
            if_neg (fun hcon => hy (List.mem_toFinset.mp hcon)),
            if_neg (fun hcon => hq (List.mem_toFinset.mp hcon))]
        · subst hq
          subst hy
          simp at hg
  · have hm : merge_media_subtypes quizzesInput ytInput allRows =
        allRows.map (fun row =>
          ⟨scrub_text row.id, scrub_text row.media,
            row.rest.map scrub_text⟩) := by
      simp only [merge_media_subtypes]
      rw [if_neg hg]
    simp only [not_or, not_not] at hg
    have hy0 : ytInput.getD [] = [] := by simpa using hg.1
    have hq0 : quizzesInput.getD [] = [] := by simpa using hg.2
    constructor
    · rw [hm]
      simp
    · intro i row hrow
      refine ⟨⟨scrub_text row.id, scrub_text row.media,
        row.rest.map scrub_text⟩, ?_, rfl, rfl, ?_, ?_, ?_, ?_⟩
      · rw [hm]
        simp [hrow]
      · intro hq hy
        rw [hy0] at hy
        exact absurd hy (List.not_mem_nil _)
      · intro hq hy
        rw [hy0] at hy
        exact absurd hy (List.not_mem_nil _)
      · intro hq hy
        rw [hq0] at hq
        exact absurd hq (List.not_mem_nil _)
      · intro _
        rfl


/-- Witness for C9: an ID in both sets gets media type "YouTube Quiz". -/
theorem merge_media_subtypes_correct_witness :
    ∃ row' : MergeRow,
      (merge_media_subtypes (some ["a"]) (some ["a", "b"])
        [⟨"a", "Video", ["x"]⟩])[0]? = some row' ∧
      row'.media = "YouTube Quiz" := by
  obtain ⟨row', h1, -, -, h4, -⟩ :=
    (merge_media_subtypes_correct (some ["a"]) (some ["a", "b"])
      [⟨"a", "Video", ["x"]⟩]).2 0 ⟨"a", "Video", ["x"]⟩ rfl
  exact ⟨row', h1, h4 (by decide) (by decide)⟩

end MergeSubtypes

namespace WorkerPool

open PyStr

/-- The row fields a worker reads. -/
structure Row where
  entry_id : String
  id : String
  policy : String
  status : String
deriving DecidableEq

/-- The pool attributes a worker thread writes directly (the queue and the
stop flag are internally synchronized primitives, not plain shared
state). -/
inductive Target where
  | results
  | errs
  | fastProcessed
  | apiProcessed
  | processed
deriving DecidableEq

/-- One attribute write performed by `WorkerPool._run`, tagged with whether
`self.lock` is held at that point. -/
structure Mutation where
  target : Target
  locked : Bool
deriving DecidableEq

/-- `"no media" in (row.get("status","") or "").strip().lower()`. -/
def noMediaStatus (row : Row) : Bool :=
  (pyLower (pyStrip row.status)).containsSubstr "no media"

/-- The sequence of shared-state writes one task performs in
`WorkerPool._run`, in program order: the fast path writes `results[idx]`
(unlocked) then bumps `fast_processed` under the lock; the API path writes
`results[idx]` (unlocked) then bumps `api_processed` under the lock; a
raised exception writes `errs[idx]` and `results[idx]` (both unlocked);
the `finally` block always bumps `processed` under the lock. -/
def runTaskEvents (row : Row) (computeRes : Except String (Nat × Nat)) :
    List Mutation :=
  if noMediaStatus row then
    [⟨.results, false⟩, ⟨.fastProcessed, true⟩, ⟨.processed, true⟩]
  else
    match computeRes with
    | .ok _ => [⟨.results, false⟩, ⟨.apiProcessed, true⟩,
        ⟨.processed, true⟩]
    | .error _ => [⟨.errs, false⟩, ⟨.results, false⟩, ⟨.processed, true⟩]

/-- The entry a task stores: `results[idx]` together with the optional
`errs[idx]` message. -/
def taskResult (row : Row) (computeRes : Except String (Nat × Nat)) :
    (Nat × Nat) × Option String :=
  if noMediaStatus row then ((0, 0), none)
  else
    match computeRes with
    | .ok v => (v, none)
    | .error e => ((0, 0), some e)

/-- The `results`/`errs` maps after the workers drained a task list, with
tasks keyed by their queue index and processed in the list's order (a
later write to the same index would overwrite an earlier one). -/
def processAll (compute : Row → Except String (Nat × Nat))
    (tasks : List (Nat × Row)) : Nat → Option ((Nat × Nat) × Option String) :=
  tasks.foldl (fun acc t => fun j =>
    if j = t.1 then some (taskResult t.2 (compute t.2)) else acc j)
    (fun _ => none)

theorem processAll_preserve (compute : Row → Except String (Nat × Nat)) :
    ∀ (tasks : List (Nat × Row))
      (acc : Nat → Option ((Nat × Nat) × Option String)) (j : Nat),
      j ∉ tasks.map Prod.fst →
      (tasks.foldl (fun acc t => fun j =>
        if j = t.1 then some (taskResult t.2 (compute t.2)) else acc j)
        acc) j = acc j := by
  intro tasks
  induction tasks with
  | nil => intro acc j _; rfl
  | cons t rest ih =>
    intro acc j hj
    simp only [List.map_cons, List.mem_cons, not_or] at hj
    rw [List.foldl_cons, ih _ j hj.2]
    simp [hj.1]

theorem processAll_mem_aux (compute : Row → Except String (Nat × Nat)) :
    ∀ (tasks : List (Nat × Row))
      (acc : Nat → Option ((Nat × Nat) × Option String)),
      (tasks.map Prod.fst).Nodup →
      ∀ i row, (i, row) ∈ tasks →
        (tasks.foldl (fun acc t => fun j =>
          if j = t.1 then some (taskResult t.2 (compute t.2)) else acc j)
          acc) i = some (taskResult row (compute row)) := by
  intro tasks
  induction tasks with
  | nil => intro acc _ i row h; simp at h
  | cons t rest ih =>
    intro acc hnodup i row hmem
    simp only [List.map_cons, List.nodup_cons] at hnodup
    rcases List.mem_cons.mp hmem with heq | hrest
    · subst heq
      rw [List.foldl_cons,
        processAll_preserve compute rest _ i (by simpa using hnodup.1)]
      simp
    · rw [List.foldl_cons]
      exact ih _ hnodup.2 i row hrest

theorem processAll_mem (compute : Row → Except String (Nat × Nat))
    (tasks : List (Nat × Row)) (hnodup : (tasks.map Prod.fst).Nodup)
    (i : Nat) (row : Row) (hmem : (i, row) ∈ tasks) :
    processAll compute tasks i = some (taskResult row (compute row)) :=
  processAll_mem_aux compute tasks (fun _ => none) hnodup i row hmem

/-- C7: in `WorkerPool._run`, every write to shared pool state other than
the entries added to the append-only `results`/`errs` collections happens
while holding the pool's single lock (`fast_processed`, `api_processed`
and `processed` are only ever bumped inside `with self.lock`); and each
submitted task's recorded outcome is a function of that task alone, so for
any drain order of distinctly-indexed tasks the final `results`/`errs`
entry of a task is exactly its own computed outcome — tasks complete or
fail independently, with no ordering guarantee between them. -/
theorem worker_pool_correct (compute : Row → Except String (Nat × Nat)) :
    (∀ (row : Row) (computeRes : Except String (Nat × Nat))
      (m : Mutation), m ∈ runTaskEvents row computeRes →
      m.target ≠ Target.results → m.target ≠ Target.errs →
      m.locked = true) ∧
    (∀ tasks : List (Nat × Row), (tasks.map Prod.fst).Nodup →
      ∀ i row, (i, row) ∈ tasks →
        processAll compute tasks i =
          some (taskResult row (compute row))) := by
  constructor
  · intro row computeRes m hm hr he
    by_cases hn : noMediaStatus row
    · simp [runTaskEvents, hn] at hm
      rcases hm with h | h | h <;> subst h <;> simp_all
    · cases computeRes with
      | ok v =>
        simp [runTaskEvents, hn] at hm
        rcases hm with h | h | h <;> subst h <;> simp_all
      | error e =>
        simp [runTaskEvents, hn] at hm
        rcases hm with h | h | h <;> subst h <;> simp_all
  · intro tasks hnodup i row hmem
    exact processAll_mem compute tasks hnodup i row hmem

/-- Witness for C7: two tasks with distinct indices, one short-circuiting
on "No Media", one computing through the API path. -/
theorem worker_pool_correct_witness :
    (([(0, ⟨"e1", "", "2year", "No Media"⟩),
        (1, ⟨"e2", "", "4year", "ready"⟩)] :
        List (Nat × Row)).map Prod.fst).Nodup ∧
    ((0, (⟨"e1", "", "2year", "No Media"⟩ : Row)) ∈
      ([(0, ⟨"e1", "", "2year", "No Media"⟩),
        (1, ⟨"e2", "", "4year", "ready"⟩)] : List (Nat × Row))) ∧
    processAll (fun _ : Row => (Except.ok (3, 700) : Except String (Nat × Nat)))
        [(0, ⟨"e1", "", "2year", "No Media"⟩),
          (1, ⟨"e2", "", "4year", "ready"⟩)] 0 =
      some (taskResult ⟨"e1", "", "2year", "No Media"⟩
        ((fun _ : Row => (Except.ok (3, 700) : Except String (Nat × Nat)))
          ⟨"e1", "", "2year", "No Media"⟩)) :=
  ⟨by decide, by decide,
    (worker_pool_correct
      (fun _ : Row => (Except.ok (3, 700) : Except String (Nat × Nat)))).2
      [(0, ⟨"e1", "", "2year", "No Media"⟩),
        (1, ⟨"e2", "", "4year", "ready"⟩)] (by decide)
      0 ⟨"e1", "", "2year", "No Media"⟩ (by decide)⟩

end WorkerPool
